import Mathlib

/-!
Verification of the release-readiness validation framework against its
specification.  The repository ships the canonical agent specification
(`ai/agents/release-readiness.prompt.md`), the architecture document
(`docs/architecture.md`) and a React consumer of the report contract
(`docs/release-readiness-ui.jsx`).  The decision core itself is specified
but not yet implemented in the repository, so the core definitions below
are modelled from the specification text; the UI definitions are
translated from `release-readiness-ui.jsx`.
-/

namespace Readiness

/-- The three-valued status of the data model (spec section 3):
RED, YELLOW, GREEN with worst-wins aggregation. -/
inductive Status where
  | RED
  | YELLOW
  | GREEN
deriving DecidableEq, Repr

/-- Modelled from the spec: the Status Algebra `combine` function
(spec section 4.1), absent from the repository sources.  Given parallel
sequences of statuses and required flags: if any entry with
required=true is RED the result is RED; else if any entry is RED
(necessarily required=false) the result is YELLOW; else if any entry is
YELLOW the result is YELLOW; else GREEN. -/
def combine (statuses : List Status) (required_flags : List Bool) : Status :=
  if (statuses.zip required_flags).any (fun e => e.2 && e.1 == Status.RED) then Status.RED
  else if (statuses.zip required_flags).any (fun e => e.1 == Status.RED) then Status.YELLOW
  else if (statuses.zip required_flags).any (fun e => e.1 == Status.YELLOW) then Status.YELLOW
  else Status.GREEN

/-- Case analysis of `combine`: the zipped entries decide the result by
the priority required-RED, then any RED or YELLOW, then GREEN. -/
theorem combine_cases (statuses : List Status) (required_flags : List Bool) :
    combine statuses required_flags =
      if ∃ p ∈ statuses.zip required_flags, p.1 = Status.RED ∧ p.2 = true then Status.RED
      else if ∃ p ∈ statuses.zip required_flags,
          p.1 = Status.RED ∨ p.1 = Status.YELLOW then Status.YELLOW
      else Status.GREEN := by
  simp only [combine, List.any_eq_true, Bool.and_eq_true, beq_iff_eq]
  by_cases hA : ∃ p ∈ statuses.zip required_flags, p.1 = Status.RED ∧ p.2 = true
  · have hA' : ∃ p ∈ statuses.zip required_flags, p.2 = true ∧ p.1 = Status.RED := by
      obtain ⟨p, hp, h1, h2⟩ := hA
      exact ⟨p, hp, h2, h1⟩
    rw [if_pos hA', if_pos hA]
  · have hA' : ¬∃ p ∈ statuses.zip required_flags, p.2 = true ∧ p.1 = Status.RED := by
      rintro ⟨p, hp, h2, h1⟩
      exact hA ⟨p, hp, h1, h2⟩
    rw [if_neg hA', if_neg hA]
    by_cases hB : ∃ p ∈ statuses.zip required_flags, p.1 = Status.RED
    · rw [if_pos hB, if_pos]
      obtain ⟨p, hp, h1⟩ := hB
      exact ⟨p, hp, Or.inl h1⟩
    · rw [if_neg hB]
      by_cases hC : ∃ p ∈ statuses.zip required_flags, p.1 = Status.YELLOW
      · rw [if_pos hC, if_pos]
        obtain ⟨p, hp, h1⟩ := hC
        exact ⟨p, hp, Or.inr h1⟩
      · rw [if_neg hC, if_neg]
        rintro ⟨p, hp, h1 | h1⟩
        · exact hB ⟨p, hp, h1⟩
        · exact hC ⟨p, hp, h1⟩

/-- Claim C1: for every sequence of statuses with a parallel sequence of
required flags, `combine` returns RED if some entry with required=true is
RED; otherwise YELLOW if some entry is RED (necessarily required=false)
or some entry is YELLOW; otherwise GREEN. -/
theorem combine_correct (statuses : List Status) (required_flags : List Bool)
    (_h : statuses.length = required_flags.length) :
    combine statuses required_flags =
      if ∃ p ∈ statuses.zip required_flags, p.1 = Status.RED ∧ p.2 = true then Status.RED
      else if ∃ p ∈ statuses.zip required_flags,
          p.1 = Status.RED ∨ p.1 = Status.YELLOW then Status.YELLOW
      else Status.GREEN :=
  combine_cases statuses required_flags

/-- Witness for C1 at a concrete input: an optional RED entry and a
required YELLOW-free GREEN entry yield YELLOW. -/
theorem combine_correct_witness :
    combine [Status.RED, Status.GREEN] [false, true] = Status.YELLOW := by
  rw [combine_correct [Status.RED, Status.GREEN] [false, true] rfl]
  decide

/-- Modelled from the spec: the `CheckResult` value type (spec section 3),
absent from the repository sources.  Fields not needed by any claim
(timestamps, durations) are omitted. -/
structure CheckResult where
  id : String
  name : String
  status : Status
  summary : String
  reasons : List String
  evidence : List String
deriving DecidableEq, Repr

/-- Modelled from the spec: the `Policy` surface exposed to the runner
(spec section 4.2), absent from the repository sources: per-check
requiredness and freshness thresholds. -/
structure Policy where
  is_required : String → Bool
  freshness_threshold : String → Nat

/-- Modelled from the spec: one registered check as the Runner sees it
(spec sections 4.3 and 4.5), absent from the repository sources.  Its
execution either produces a `CheckResult` or fails with an internal
error carrying a cause. -/
structure RegisteredCheck where
  id : String
  name : String
  run : Unit → Except String CheckResult

/-- Modelled from the spec: the Runner boundary around a single check
(spec section 4.5): an internal error is caught and converted into a RED
`CheckResult` carrying the failure cause. -/
def runCheck (c : RegisteredCheck) : CheckResult :=
  match c.run () with
  | Except.ok r => r
  | Except.error cause =>
      { id := c.id
        name := c.name
        status := Status.RED
        summary := "internal error"
        reasons := [cause]
        evidence := [] }

/-- Modelled from the spec: release metadata carried by the report
(spec sections 3 and 6): resolved service identity and version. -/
structure ReleaseMeta where
  service : String
  version : String
deriving DecidableEq, Repr

/-- Modelled from the spec: the `ReadinessReport` produced by the Runner
(spec sections 3, 4.5 and 6): release metadata, overall status, ordered
check results, summary counts, the blocking-vs-non-blocking split, the
generation timestamp and the build identifier as top-level fields. -/
structure ReadinessReport where
  release : ReleaseMeta
  overall_status : Status
  checks : List CheckResult
  red_count : Nat
  yellow_count : Nat
  green_count : Nat
  blocking : List String
  non_blocking : List String
  generated_at : String
  build_id : String
deriving DecidableEq, Repr

/-- Modelled from the spec: the Runner / Orchestrator `execute`
(spec section 4.5), absent from the repository sources.  It runs every
registered check in declared order, tolerating per-check failure via
`runCheck`, recomputes `overall_status` with `combine` from the check
statuses and the per-check required flags supplied by Policy, and
assembles the immutable `ReadinessReport` with summary counts and the
blocking split. -/
def execute (p : Policy) (cs : List RegisteredCheck)
    (rel : ReleaseMeta) (generated_at build_id : String) : ReadinessReport :=
  let results := cs.map runCheck
  let flags := cs.map (fun c => p.is_required c.id)
  { release := rel
    overall_status := combine (results.map (fun r => r.status)) flags
    checks := results
    red_count := (results.filter (fun r => r.status == Status.RED)).length
    yellow_count := (results.filter (fun r => r.status == Status.YELLOW)).length
    green_count := (results.filter (fun r => r.status == Status.GREEN)).length
    blocking := (cs.filter (fun c =>
      p.is_required c.id && !((runCheck c).status == Status.GREEN))).map (fun c => c.id)
    non_blocking := (cs.filter (fun c =>
      !(p.is_required c.id) && !((runCheck c).status == Status.GREEN))).map (fun c => c.id)
    generated_at := generated_at
    build_id := build_id }

/-- Modelled from the spec: the outcome of one CLI invocation
(spec section 6): either a completed run with a report, or a tool
failure (config error, catastrophic adapter failure before any check
ran, or report-write failure). -/
inductive RunOutcome where
  | completed (report : ReadinessReport)
  | toolFailure (reason : String)

/-- Modelled from the spec: the CLI exit code mapping (spec section 6):
0 for overall GREEN, 1 for overall YELLOW, 2 for overall RED, 3 for a
tool failure. -/
def exitCode (outcome : RunOutcome) : Nat :=
  match outcome with
  | RunOutcome.completed r =>
      match r.overall_status with
      | Status.GREEN => 0
      | Status.YELLOW => 1
      | Status.RED => 2
  | RunOutcome.toolFailure _ => 3

/-! ## UI model, translated from `docs/release-readiness-ui.jsx`.

The React component consumes a JSON report value whose fields may all be
absent; absent JavaScript properties are modelled with `Option`, and the
falsy test on a string (the `release.service && release.version` and
`release.generated_at` guards) treats the empty string like an absent
value, matching JavaScript truthiness. -/

/-- A check object as consumed by `CheckCard` in the JSX: `id`, `name`,
`status`, `summary`, `reasons`, `evidence` may each be missing. -/
structure UICheck where
  id : Option String
  name : Option String
  status : Option String
  summary : Option String
  reasons : Option (List String)
  evidence : Option (List String)
deriving DecidableEq, Repr

/-- The `release` object of the consumed report: the JSX header comment
says it should contain `service`, `version` and `generated_at`. -/
structure UIRelease where
  service : Option String
  version : Option String
  generated_at : Option String
deriving DecidableEq, Repr

/-- The `report` prop as consumed by `ReleaseReadinessUI`: `release`,
`overall_status` and `checks` are destructured with defaults; the report
contract of the spec additionally carries top-level `generated_at` and
`build_id`, which the component never reads. -/
structure UIReport where
  release : Option UIRelease
  overall_status : Option String
  checks : Option (List UICheck)
  generated_at : Option String
  build_id : Option String
deriving DecidableEq, Repr

/-- The value produced by a JavaScript property access on the
`statusClasses` object literal: an own string property, a truthy value
inherited from `Object.prototype` (a function, or the prototype object
for the `__proto__` accessor), or `undefined`. -/
inductive JSProp where
  | str (s : String)
  | inherited (name : String)
  | undef
deriving DecidableEq, Repr

/-- The property names an object literal inherits from
`Object.prototype`, all of which evaluate to truthy values. -/
def objectPrototypeProps : List String :=
  ["constructor", "hasOwnProperty", "isPrototypeOf", "propertyIsEnumerable",
   "toLocaleString", "toString", "valueOf", "__proto__",
   "__defineGetter__", "__defineSetter__", "__lookupGetter__", "__lookupSetter__"]

/-- JavaScript truthiness of a looked-up property value: an own string
is truthy when non-empty, inherited prototype members (functions, the
prototype object) are truthy, `undefined` is falsy. -/
def truthy (v : JSProp) : Bool :=
  match v with
  | JSProp.str s => s ≠ ""
  | JSProp.inherited _ => true
  | JSProp.undef => false

/-- The JavaScript `||` operator on a looked-up value: the left operand
when truthy, the fallback class string otherwise. -/
def jsOr (v : JSProp) (fallback : String) : JSProp :=
  if truthy v then v else JSProp.str fallback

/-- The `statusClasses` mapping of the JSX: an object literal with own
keys GREEN, YELLOW and RED.  A bracket lookup with any other key
consults the prototype chain: names of `Object.prototype` members yield
the inherited (truthy) value, and only the remaining keys yield
`undefined`. -/
def statusClasses (key : String) : JSProp :=
  if key = "GREEN" then JSProp.str "bg-green-500 text-white"
  else if key = "YELLOW" then JSProp.str "bg-yellow-500 text-black"
  else if key = "RED" then JSProp.str "bg-red-500 text-white"
  else if key ∈ objectPrototypeProps then JSProp.inherited key
  else JSProp.undef

/-- The rendered output of `CheckCard`: the badge shows the check status
string with the CSS class value `statusClasses[status] || fallback`. -/
structure RenderedCard where
  title : Option String
  badge_text : Option String
  badge_class : JSProp
  summary_text : Option String
  reason_items : List String
  evidence_items : List String
deriving DecidableEq, Repr

/-- `CheckCard` from the JSX: destructures the check with defaults
`reasons = []`, `evidence = []` and computes
`statusClasses[status] || 'bg-gray-300 text-black'`; a missing status
is coerced to the property key `undefined` by the bracket access. -/
def CheckCard (check : UICheck) : RenderedCard :=
  { title := check.name
    badge_text := check.status
    badge_class :=
      jsOr
        (match check.status with
         | some s => statusClasses s
         | none => statusClasses "undefined")
        "bg-gray-300 text-black"
    summary_text := check.summary
    reason_items := check.reasons.getD []
    evidence_items := check.evidence.getD [] }

/-- The rendered header of `ReleaseReadinessUI`: the overall badge text
and class value, the optional service/version line and the optional
generation-timestamp line. -/
structure RenderedHeader where
  badge_text : String
  badge_class : JSProp
  service_line : Option (String × String)
  timestamp_line : Option String
deriving DecidableEq, Repr

/-- The rendered output of `ReleaseReadinessUI`: either the placeholder
div shown when no report is provided, or the page with its header and
one card per check. -/
inductive RenderedUI where
  | placeholder (message : String)
  | page (header : RenderedHeader) (cards : List RenderedCard)
deriving DecidableEq, Repr

/-- `ReleaseReadinessUI` from the JSX: `if (!report)` renders the
placeholder; otherwise the report is destructured with defaults
`release = \x7b\x7d`, `overall_status = 'UNKNOWN'`, `checks = []`, the
overall badge class is `statusClasses[overallStatus] || fallback`, the
timestamp line renders only when `release.generated_at` is truthy, and
the checks grid maps `CheckCard` over `checks`. -/
def ReleaseReadinessUI (report : Option UIReport) : RenderedUI :=
  match report with
  | none => RenderedUI.placeholder "No report data available."
  | some r =>
      let release := r.release.getD { service := none, version := none, generated_at := none }
      let overallStatus := r.overall_status.getD "UNKNOWN"
      let checks := r.checks.getD []
      RenderedUI.page
        { badge_text := overallStatus
          badge_class := jsOr (statusClasses overallStatus) "bg-gray-300 text-black"
          service_line :=
            match release.service, release.version with
            | some s, some v => if s = "" ∨ v = "" then none else some (s, v)
            | _, _ => none
          timestamp_line :=
            match release.generated_at with
            | some t => if t = "" then none else some t
            | none => none }
        (checks.map CheckCard)

/-- The header of a rendered page, or `none` for the placeholder. -/
def renderedHeader (ui : RenderedUI) : Option RenderedHeader :=
  match ui with
  | RenderedUI.placeholder _ => none
  | RenderedUI.page h _ => some h

/-- The canonical JSON spelling of a `Status` value. -/
def statusString (s : Status) : String :=
  match s with
  | Status.RED => "RED"
  | Status.YELLOW => "YELLOW"
  | Status.GREEN => "GREEN"

/-- Modelled from the spec: the serialization of a core `ReadinessReport`
into the JSON report contract of spec section 6 consumed by reporters and
the UI: `release` metadata, `overall_status`, `checks[]`, and top-level
`generated_at` and `build_id`. -/
def toUIReport (r : ReadinessReport) : UIReport :=
  { release := some
      { service := some r.release.service
        version := some r.release.version
        generated_at := none }
    overall_status := some (statusString r.overall_status)
    checks := some (r.checks.map (fun c =>
      { id := some c.id
        name := some c.name
        status := some (statusString c.status)
        summary := some c.summary
        reasons := some c.reasons
        evidence := some c.evidence }))
    generated_at := some r.generated_at
    build_id := some r.build_id }

/-! ## Individual checks modelled from the specification. -/

/-- Modelled from the spec: the normalized ArgoCD application state
returned by the adapter (spec section 6): `sync_status`,
`health_status`, `revision`. -/
structure ArgoApp where
  sync_status : String
  health_status : String
  revision : String
deriving DecidableEq, Repr

/-- Modelled from the spec: the non-prod deployment check
(spec section 4.3), absent from the repository sources.  The application
may be missing (`none`); `within_window` says whether a degraded health
is within the configured allowed window.  App missing → RED; sync status
not Synced → RED regardless of health; synced with a revision mismatch →
RED; synced, revision match, healthy → GREEN; synced, revision match,
degraded within window → YELLOW; outside window → RED. -/
def deploymentCheck (app : Option ArgoApp) (expected_revision : String)
    (within_window : Bool) : Status × List String :=
  match app with
  | none => (Status.RED, ["application not found"])
  | some a =>
      if a.sync_status ≠ "Synced" then (Status.RED, ["not synced"])
      else if a.revision ≠ expected_revision then (Status.RED, ["revision mismatch"])
      else if a.health_status = "Healthy" then (Status.GREEN, [])
      else if within_window then (Status.YELLOW, ["health degraded within allowed window"])
      else (Status.RED, ["health degraded outside allowed window"])

/-- Modelled from the spec: the normalized Jenkins build result
(spec sections 4.3 and 6): a terminal status and a timestamp. -/
inductive BuildOutcome where
  | SUCCESS
  | FAILED
  | ABORTED
deriving DecidableEq, Repr

/-- Modelled from the spec: the located Jenkins build for the regression
check: outcome and timestamp. -/
structure JenkinsBuild where
  outcome : BuildOutcome
  timestamp : Nat
deriving DecidableEq, Repr

/-- Modelled from the spec: the regression test check (spec section 4.3),
absent from the repository sources.  Missing build → RED; status FAILED
or ABORTED → RED; SUCCESS and `now - build.timestamp ≤
freshness_threshold` → GREEN; SUCCESS but older → YELLOW with reason
stale evidence. -/
def regressionCheck (build : Option JenkinsBuild)
    (now freshness_threshold : Nat) : Status × List String :=
  match build with
  | none => (Status.RED, ["no matching build"])
  | some b =>
      match b.outcome with
      | BuildOutcome.FAILED => (Status.RED, ["build failed"])
      | BuildOutcome.ABORTED => (Status.RED, ["build aborted"])
      | BuildOutcome.SUCCESS =>
          if now - b.timestamp ≤ freshness_threshold then (Status.GREEN, [])
          else (Status.YELLOW, ["stale evidence"])

/-! ## Theorems about the Runner, the CLI and the checks. -/

/-- Claim C2: for every run in which some check that Policy marks
optional produces a RED result and no required check is RED, the
Runner's `overall_status` is YELLOW: the optional RED downgrades the
overall verdict rather than being ignored. -/
theorem optional_red_downgrades_overall (p : Policy) (cs : List RegisteredCheck)
    (rel : ReleaseMeta) (g b : String)
    (hopt : ∃ c ∈ cs, p.is_required c.id = false ∧ (runCheck c).status = Status.RED)
    (hreq : ∀ c ∈ cs, p.is_required c.id = true → (runCheck c).status ≠ Status.RED) :
    (execute p cs rel g b).overall_status = Status.YELLOW := by
  show combine ((cs.map runCheck).map (fun r => r.status))
      (cs.map (fun c => p.is_required c.id)) = Status.YELLOW
  rw [List.map_map, combine_cases, List.zip_map']
  have hno : ¬∃ q ∈ cs.map (fun a =>
      (((fun r => r.status) ∘ runCheck) a, p.is_required a.id)),
      q.1 = Status.RED ∧ q.2 = true := by
    rintro ⟨q, hq, hred, hflag⟩
    obtain ⟨c, hc, rfl⟩ := List.mem_map.mp hq
    exact hreq c hc hflag hred
  have hyes : ∃ q ∈ cs.map (fun a =>
      (((fun r => r.status) ∘ runCheck) a, p.is_required a.id)),
      q.1 = Status.RED ∨ q.1 = Status.YELLOW := by
    obtain ⟨c, hc, _, hst⟩ := hopt
    exact ⟨_, List.mem_map_of_mem _ hc, Or.inl hst⟩
  rw [if_neg hno, if_pos hyes]

/-- A concrete optional check whose result is RED, used as witness data. -/
def optCheck : RegisteredCheck :=
  { id := "regression"
    name := "Regression"
    run := fun _ => Except.ok
      { id := "regression"
        name := "Regression"
        status := Status.RED
        summary := "regression job failed"
        reasons := ["build failed"]
        evidence := [] } }

/-- A policy marking every check optional, used as witness data. -/
def allOptional : Policy :=
  { is_required := fun _ => false
    freshness_threshold := fun _ => 0 }

/-- Witness for C2: a single optional RED check yields overall YELLOW. -/
theorem optional_red_downgrades_overall_witness :
    (execute allOptional [optCheck] ⟨"svc", "1.0"⟩ "t" "42").overall_status
      = Status.YELLOW :=
  optional_red_downgrades_overall allOptional [optCheck] ⟨"svc", "1.0"⟩ "t" "42"
    ⟨optCheck, List.mem_singleton.mpr rfl, rfl, rfl⟩
    (fun _ _ h => absurd h (Bool.false_ne_true))

/-- Claim C3: in every report produced by the Runner, `overall_status`
equals `combine` of the contained check statuses and the per-check
required flags from Policy, and the UI header displays the serialized
overall status verbatim without re-deriving it. -/
theorem overall_status_recomputed (p : Policy) (cs : List RegisteredCheck)
    (rel : ReleaseMeta) (g b : String) :
    (execute p cs rel g b).overall_status
        = combine ((execute p cs rel g b).checks.map (fun r => r.status))
            (cs.map (fun c => p.is_required c.id))
      ∧ (renderedHeader (ReleaseReadinessUI (some (toUIReport (execute p cs rel g b))))).map
            (fun h => h.badge_text)
          = some (statusString (execute p cs rel g b).overall_status) :=
  ⟨rfl, rfl⟩

/-- Claim C4: the Runner boundary converts a check's internal error into
a RED result carrying the failure cause, and every sibling check still
appears in the report: the checks list is exactly the checks run in
registration order, with one entry per registered check. -/
theorem runner_tolerates_check_errors (p : Policy) (cs : List RegisteredCheck)
    (rel : ReleaseMeta) (g b : String) :
    (execute p cs rel g b).checks = cs.map runCheck
  ∧ (execute p cs rel g b).checks.length = cs.length
  ∧ ∀ c ∈ cs, ∀ cause, c.run () = Except.error cause →
      runCheck c ∈ (execute p cs rel g b).checks
      ∧ (runCheck c).status = Status.RED
      ∧ (runCheck c).reasons = [cause] := by
  refine ⟨rfl, by simp [execute], ?_⟩
  intro c hc cause herr
  refine ⟨List.mem_map_of_mem runCheck hc, ?_, ?_⟩
  · simp [runCheck, herr]
  · simp [runCheck, herr]

/-- A concrete check that raises an internal error, used as witness
data. -/
def failingCheck : RegisteredCheck :=
  { id := "certification"
    name := "Certification"
    run := fun _ => Except.error "boom" }

/-- Witness for C4: the failing check is converted to RED with its cause
recorded, and the sibling report still lists one result per check. -/
theorem runner_tolerates_check_errors_witness :
    (runCheck failingCheck).status = Status.RED
      ∧ (runCheck failingCheck).reasons = ["boom"] := by
  have h := (runner_tolerates_check_errors allOptional [failingCheck]
      ⟨"svc", "1.0"⟩ "t" "42").2.2 failingCheck (List.mem_singleton.mpr rfl) "boom" rfl
  exact ⟨h.2.1, h.2.2⟩

/-- Claim C5: the CLI exit code is 0 when `overall_status` is GREEN, 1
when YELLOW, 2 when RED, and 3 on tool failure. -/
theorem exitCode_correct (r : ReadinessReport) (msg : String) :
    (r.overall_status = Status.GREEN → exitCode (RunOutcome.completed r) = 0)
  ∧ (r.overall_status = Status.YELLOW → exitCode (RunOutcome.completed r) = 1)
  ∧ (r.overall_status = Status.RED → exitCode (RunOutcome.completed r) = 2)
  ∧ exitCode (RunOutcome.toolFailure msg) = 3 := by
  refine ⟨?_, ?_, ?_, rfl⟩ <;> intro h <;> simp [exitCode, h]

/-- A check registry delivering the end-to-end scenario of spec
section 8: five checks returning GREEN, YELLOW, GREEN, GREEN, GREEN. -/
def fiveChecksStale : List RegisteredCheck :=
  [⟨"deployment", "Deployment", fun _ => Except.ok
      ⟨"deployment", "Deployment", Status.GREEN, "ok", [], []⟩⟩,
   ⟨"regression", "Regression", fun _ => Except.ok
      ⟨"regression", "Regression", Status.YELLOW, "stale", ["stale evidence"], []⟩⟩,
   ⟨"certification", "Certification", fun _ => Except.ok
      ⟨"certification", "Certification", Status.GREEN, "ok", [], []⟩⟩,
   ⟨"prerelease", "PreRelease", fun _ => Except.ok
      ⟨"prerelease", "PreRelease", Status.GREEN, "ok", [], []⟩⟩,
   ⟨"change_mgmt", "ChangeManagement", fun _ => Except.ok
      ⟨"change_mgmt", "ChangeManagement", Status.GREEN, "ok", [], []⟩⟩]

/-- A policy marking every check required, used as witness data. -/
def allRequired : Policy :=
  { is_required := fun _ => true
    freshness_threshold := fun _ => 24 }

/-- Witness for C5, the end-to-end scenario of spec section 8: five
checks returning GREEN, YELLOW, GREEN, GREEN, GREEN give overall YELLOW
and exit code 1. -/
theorem exitCode_correct_witness :
    exitCode (RunOutcome.completed
      (execute allRequired fiveChecksStale ⟨"svc", "1.0"⟩ "t" "7")) = 1 :=
  (exitCode_correct (execute allRequired fiveChecksStale ⟨"svc", "1.0"⟩ "t" "7")
    "unused").2.1 rfl

/-- Claim C6: whenever the ArgoCD application exists and its sync status
is not Synced, the deployment check returns RED, for every health status
and every expected revision, whether or not the degraded-health window
applies. -/
theorem deploymentCheck_not_synced_red (a : ArgoApp) (expected_revision : String)
    (within_window : Bool) (h : a.sync_status ≠ "Synced") :
    (deploymentCheck (some a) expected_revision within_window).1 = Status.RED := by
  simp [deploymentCheck, h]

/-- Witness for C6: an out-of-sync but healthy application with a
matching revision is still RED. -/
theorem deploymentCheck_not_synced_red_witness :
    (deploymentCheck (some ⟨"OutOfSync", "Healthy", "abc123"⟩) "abc123" true).1
      = Status.RED :=
  deploymentCheck_not_synced_red ⟨"OutOfSync", "Healthy", "abc123"⟩ "abc123" true
    (by decide)

/-- Claim C7: for a located Jenkins build, SUCCESS within the freshness
threshold gives GREEN; SUCCESS older than the threshold gives YELLOW with
reason stale evidence; FAILED or ABORTED gives RED regardless of the
timestamp. -/
theorem regressionCheck_correct (b : JenkinsBuild) (now freshness_threshold : Nat) :
    (b.outcome = BuildOutcome.SUCCESS → now - b.timestamp ≤ freshness_threshold →
        regressionCheck (some b) now freshness_threshold = (Status.GREEN, []))
  ∧ (b.outcome = BuildOutcome.SUCCESS → ¬(now - b.timestamp ≤ freshness_threshold) →
        regressionCheck (some b) now freshness_threshold
          = (Status.YELLOW, ["stale evidence"]))
  ∧ ((b.outcome = BuildOutcome.FAILED ∨ b.outcome = BuildOutcome.ABORTED) →
        (regressionCheck (some b) now freshness_threshold).1 = Status.RED) := by
  refine ⟨?_, ?_, ?_⟩
  · intro hs hf
    simp [regressionCheck, hs, hf]
  · intro hs hf
    simp [regressionCheck, hs, hf]
  · rintro (h | h) <;> simp [regressionCheck, h]

/-- Witness for C7, the scenario of spec section 8: a SUCCESS build two
hours old against a 24-hour threshold is GREEN. -/
theorem regressionCheck_correct_witness :
    regressionCheck (some ⟨BuildOutcome.SUCCESS, 100⟩) 102 24
      = (Status.GREEN, []) :=
  (regressionCheck_correct ⟨BuildOutcome.SUCCESS, 100⟩ 102 24).1 rfl (by decide)

/-- A concrete report following the report contract: the generation
timestamp and build identifier are top-level fields. -/
def contractReport : ReadinessReport :=
  { release := ⟨"svc", "1.0"⟩
    overall_status := Status.GREEN
    checks := []
    red_count := 0
    yellow_count := 0
    green_count := 0
    blocking := []
    non_blocking := []
    generated_at := "2026-10-12T00:00:00Z"
    build_id := "42" }

/-- Counterexample for C8: on a contract-shaped report with its
generation timestamp at the top level, the UI consumer renders no
timestamp line at all, so the consumer does not find the generation
timestamp at the top level of the report. -/
theorem report_timestamp_counterexample :
    contractReport.generated_at = "2026-10-12T00:00:00Z"
  ∧ ¬((renderedHeader (ReleaseReadinessUI (some (toUIReport contractReport)))).map
        (fun h => h.timestamp_line)
      = some (some contractReport.generated_at)) := by
  refine ⟨rfl, ?_⟩
  decide

/-- Claim C8 as amended: every report produced by the core carries
`generated_at` and `build_id` as top-level fields of the serialized
report contract, but the bundled UI consumer reads the generation
timestamp only from `release.generated_at` nested inside the release
metadata object, so it renders no timestamp for a contract-shaped
report. -/
theorem report_timestamp_contract (p : Policy) (cs : List RegisteredCheck)
    (rel : ReleaseMeta) (g b : String) :
    (toUIReport (execute p cs rel g b)).generated_at = some g
  ∧ (toUIReport (execute p cs rel g b)).build_id = some b
  ∧ (renderedHeader (ReleaseReadinessUI (some (toUIReport (execute p cs rel g b))))).map
        (fun h => h.timestamp_line)
      = some none :=
  ⟨rfl, rfl, rfl⟩

/-- Claim C9: with a missing report prop the component renders exactly
the placeholder element, so rendering is total at this entry point and
touches no field of the absent report. -/
theorem missing_report_placeholder :
    ReleaseReadinessUI none = RenderedUI.placeholder "No report data available." :=
  rfl

/-- Counterexample for C10: the status string toString lies outside
GREEN, YELLOW and RED, yet the card badge class is the truthy value
inherited from the object prototype, not the neutral fallback class: the
bracket lookup `statusClasses[status]` consults the prototype chain, so
the status-to-class mapping is not total over arbitrary strings. -/
theorem unknown_status_fallback_counterexample :
    "toString" ≠ "GREEN" ∧ "toString" ≠ "YELLOW" ∧ "toString" ≠ "RED"
  ∧ (CheckCard
      { id := none
        name := none
        status := some "toString"
        summary := none
        reasons := none
        evidence := none }).badge_class = JSProp.inherited "toString"
  ∧ (CheckCard
      { id := none
        name := none
        status := some "toString"
        summary := none
        reasons := none
        evidence := none }).badge_class ≠ JSProp.str "bg-gray-300 text-black" := by
  refine ⟨by decide, by decide, by decide, by decide, by decide⟩

/-- Claim C10 as amended: for every status string outside GREEN, YELLOW
and RED that is not the name of a property inherited from the object
prototype, the card badge and the header badge fall back to the neutral
class, and a missing overall status defaults the header badge to UNKNOWN
with the same neutral class; strings naming inherited prototype members
instead surface the truthy inherited value and defeat the fallback. -/
theorem unknown_status_fallback (s : String)
    (hs : s ≠ "GREEN" ∧ s ≠ "YELLOW" ∧ s ≠ "RED")
    (hp : s ∉ objectPrototypeProps) :
    (∀ check : UICheck, check.status = some s →
        (CheckCard check).badge_class = JSProp.str "bg-gray-300 text-black")
  ∧ (∀ rep : UIReport, rep.overall_status = some s →
        (renderedHeader (ReleaseReadinessUI (some rep))).map (fun h => h.badge_class)
          = some (JSProp.str "bg-gray-300 text-black"))
  ∧ (∀ rep : UIReport, rep.overall_status = none →
        (renderedHeader (ReleaseReadinessUI (some rep))).map
            (fun h => (h.badge_text, h.badge_class))
          = some ("UNKNOWN", JSProp.str "bg-gray-300 text-black")) := by
  obtain ⟨h1, h2, h3⟩ := hs
  have hlook : statusClasses s = JSProp.undef := by
    simp [statusClasses, h1, h2, h3, hp]
  refine ⟨?_, ?_, ?_⟩
  · intro check hc
    simp [CheckCard, hc, hlook, jsOr, truthy]
  · intro rep hr
    simp [ReleaseReadinessUI, renderedHeader, hr, hlook, jsOr, truthy]
  · intro rep hr
    simp [ReleaseReadinessUI, renderedHeader, hr, jsOr, truthy,
      statusClasses, objectPrototypeProps]

/-- Witness for C10: the arbitrary status string PURPLE, neither a
status key nor an inherited prototype member, gets the neutral badge
class on a card. -/
theorem unknown_status_fallback_witness :
    (CheckCard
      { id := none
        name := none
        status := some "PURPLE"
        summary := none
        reasons := none
        evidence := none }).badge_class = JSProp.str "bg-gray-300 text-black" :=
  (unknown_status_fallback "PURPLE" (by decide) (by decide)).1
    { id := none
      name := none
      status := some "PURPLE"
      summary := none
      reasons := none
      evidence := none } rfl

end Readiness
